import Mathlib

/-!
Verification development for the FoodScraper repository (src/main.rs).

The file shallowly embeds the selector-driven extraction core of the
program: URL acceptance (main, lines 51-67, and validate_url, lines
189-205), selector-set loading from a parsed TOML value (load_selectors,
lines 128-162), the select-first primitive (select_elements, lines
231-234), the five field extractors (lines 260-410), the Recipe assembly
(main, lines 76-88), and the output file name derivation (main, lines
84-88). External collaborators (HTTP fetch, HTML parsing into a tree,
TOML file reading, JSON writing) are abstracted as inputs: the document
arrives as an already-parsed node tree and the configuration as an
already-parsed TOML value, exactly as the spec scopes them out.
-/

set_option linter.unusedVariables false

namespace FoodScraper

/-! ## Substring containment (models Rust str::contains for string needles) -/

def isSpaceChar (c : Char) : Bool :=
  c == ' ' || c == '\t' || c == '\n' || c == '\r'

/-- Models Rust str::trim (on ASCII whitespace): drops leading and
trailing whitespace characters. -/
def rustTrim (s : String) : String :=
  String.mk (((s.toList.dropWhile isSpaceChar).reverse.dropWhile isSpaceChar).reverse)

/-- Models Rust str::is_empty. -/
def rustIsEmpty (s : String) : Bool :=
  s.toList.isEmpty

/-- Models Vec::join(sep) on a list of strings. -/
def joinWith (sep : String) : List String → String
  | [] => ""
  | [s] => s
  | s :: rest => s ++ sep ++ joinWith sep rest

/-- Models Rust str::contains(needle) on character lists: true when
needle occurs contiguously anywhere in the haystack. -/
def containsSeg (needle : List Char) : List Char → Bool
  | [] => needle.isEmpty
  | c :: rest => needle.isPrefixOf (c :: rest) || containsSeg needle rest

/-- Models Rust str::contains on strings, as used on line 62 of main. -/
def rustContains (haystack needle : String) : Bool :=
  containsSeg needle.toList haystack.toList

theorem containsSeg_iff_infix (needle haystack : List Char) :
    containsSeg needle haystack = true ↔ needle <:+: haystack := by
  induction haystack with
  | nil =>
    simp [containsSeg, List.isEmpty_iff, List.infix_nil]
  | cons c rest ih =>
    simp only [containsSeg, Bool.or_eq_true, List.isPrefixOf_iff_prefix, ih,
      List.infix_cons_iff]

theorem rustContains_iff_infix (haystack needle : String) :
    rustContains haystack needle = true ↔ needle.toList <:+: haystack.toList :=
  containsSeg_iff_infix needle.toList haystack.toList

/-! ## URL parsing (models the external url crate on the shapes that occur
here: absolute URLs of the forms scheme://host... and scheme:opaque...) -/

/-- Result of a successful URL parse: the (lowercased) scheme and, for
scheme://host... forms, the host. -/
structure ParsedUrl where
  scheme : String
  host : Option String
  deriving DecidableEq

def isSchemeChar (c : Char) : Bool :=
  c.isAlpha || c.isDigit || c == '+' || c == '-' || c == '.'

def isHostEnd (c : Char) : Bool :=
  c == '/' || c == '?' || c == '#' || c == ':'

/-- Models url::Url::parse(s).ok(): fails when there is no scheme
followed by a colon, or when a scheme://... form has an empty host;
otherwise returns the scheme (lowercased, as the url crate normalizes)
and the host when present. -/
def urlParse (s : String) : Option ParsedUrl :=
  let cs := s.toList
  let scheme := cs.takeWhile (fun c => c != ':')
  match scheme, cs.drop scheme.length with
  | c :: sc, ':' :: afterColon =>
    if c.isAlpha && (c :: sc).all isSchemeChar then
      match afterColon with
      | '/' :: '/' :: hostRest =>
        let host := hostRest.takeWhile (fun h => !(isHostEnd h))
        if host.isEmpty then none
        else some ⟨String.mk ((c :: sc).map Char.toLower), some (String.mk host)⟩
      | _ => some ⟨String.mk ((c :: sc).map Char.toLower), none⟩
    else none
  | _, _ => none

/-- Embeds validate_url (main.rs lines 189-205): trim, parse, require an
http or https scheme and a host; errors carry the printed messages. Its
result is only printed by main (lines 57-60); it does not gate acceptance. -/
def validate_url (input_url : String) : Except String ParsedUrl :=
  let trimmed_url := rustTrim input_url
  match urlParse trimmed_url with
  | some url =>
    if url.scheme == "http" || url.scheme == "https" then
      if url.host.isSome then Except.ok url
      else Except.error "URL must contain a valid host."
    else Except.error "URL must use http or https scheme."
  | none => Except.error "Invalid URL format."

/-- Embeds the acceptance test of main.rs line 62, applied to the trimmed
input: Url::parse(input_url).is_ok() and
input_url.contains of the literal https://15gram.be/ -/
def acceptUrl (input_url : String) : Bool :=
  (urlParse input_url).isSome && rustContains input_url "https://15gram.be/"

/-- Embeds the input loop of main.rs lines 51-67 over a finite sequence of
user input lines: each line is trimmed and tested with the line-62
condition; the first accepted (trimmed) line is returned, a rejected line
only causes the loop to move on to the next input. -/
def urlLoop : List String → Option String
  | [] => none
  | line :: rest =>
    let input_url := rustTrim line
    if acceptUrl input_url then some input_url else urlLoop rest

/-! ## CSS selectors (models scraper::Selector on the grammar subset the
program uses: compound selectors built from a tag name, classes, ids and
:nth-child(n), combined with child and descendant combinators; any string
outside this subset fails to parse, in particular the empty string). -/

/-- One compound selector: optional tag name plus id, class and
:nth-child(n) requirements (all must hold on the element). -/
structure SimpleSel where
  tag : Option String
  ids : List String
  classes : List String
  nths : List Nat
  deriving DecidableEq

/-- A complex selector: a compound selector, possibly reached from another
complex selector through a child or descendant combinator. -/
inductive Sel where
  | simple (s : SimpleSel)
  | child (p : Sel) (s : SimpleSel)
  | descendant (p : Sel) (s : SimpleSel)
  deriving DecidableEq

def isIdentChar (c : Char) : Bool :=
  c.isAlpha || c.isDigit || c == '-' || c == '_'

def skipSpaces (cs : List Char) : List Char := cs.dropWhile isSpaceChar

/-- Reads a nonempty identifier from the front of the input. -/
def takeIdent (cs : List Char) : Option (String × List Char) :=
  let tk := cs.takeWhile isIdentChar
  if tk.isEmpty then none else some (String.mk tk, cs.drop tk.length)

/-- Strips an expected literal from the front of the input. -/
def stripLead : List Char → List Char → Option (List Char)
  | [], cs => some cs
  | p :: ps, c :: cs => if p == c then stripLead ps cs else none
  | _ :: _, [] => none

def digitsToNat (cs : List Char) : Nat :=
  cs.foldl (fun acc c => acc * 10 + (c.toNat - '0'.toNat)) 0

/-- Reads the trailing id / class / :nth-child(n) parts of one compound
selector; stops at the first character that cannot continue the compound. -/
def parseParts : Nat → SimpleSel → List Char → Option (SimpleSel × List Char)
  | 0, _, _ => none
  | fuel + 1, s, cs =>
    match cs with
    | '.' :: rest =>
      match takeIdent rest with
      | some (c, rest2) => parseParts fuel { s with classes := s.classes ++ [c] } rest2
      | none => none
    | '#' :: rest =>
      match takeIdent rest with
      | some (i, rest2) => parseParts fuel { s with ids := s.ids ++ [i] } rest2
      | none => none
    | ':' :: rest =>
      match stripLead "nth-child(".toList rest with
      | none => none
      | some rest1 =>
        let ds := rest1.takeWhile Char.isDigit
        if ds.isEmpty then none
        else
          match rest1.drop ds.length with
          | ')' :: rest2 => parseParts fuel { s with nths := s.nths ++ [digitsToNat ds] } rest2
          | _ => none
    | _ => some (s, cs)

/-- Reads one compound selector (tag and/or at least one part). -/
def parseCompound (cs : List Char) : Option (SimpleSel × List Char) :=
  match takeIdent cs with
  | some (t, rest) => parseParts (rest.length + 1) ⟨some t, [], [], []⟩ rest
  | none =>
    match parseParts (cs.length + 1) ⟨none, [], [], []⟩ cs with
    | some (s, rest) =>
      if s.ids.isEmpty && s.classes.isEmpty && s.nths.isEmpty then none
      else some (s, rest)
    | none => none

/-- Folds further compounds onto an already-parsed complex selector via
child or descendant combinators until the input is exhausted. -/
def parseSelLoop : Nat → Sel → List Char → Option Sel
  | 0, _, _ => none
  | fuel + 1, acc, cs =>
    match cs with
    | [] => some acc
    | c :: cs2 =>
      if isSpaceChar c then
        match skipSpaces cs2 with
        | [] => some acc
        | '>' :: rest =>
          match parseCompound (skipSpaces rest) with
          | some (s, rest2) => parseSelLoop fuel (Sel.child acc s) rest2
          | none => none
        | other =>
          match parseCompound other with
          | some (s, rest2) => parseSelLoop fuel (Sel.descendant acc s) rest2
          | none => none
      else if c == '>' then
        match parseCompound (skipSpaces cs2) with
        | some (s, rest2) => parseSelLoop fuel (Sel.child acc s) rest2
        | none => none
      else none

/-- Models scraper::Selector::parse(selector).ok(): none on any string
outside the supported grammar (the empty string included), otherwise the
parsed selector. -/
def parseSelector (selector : String) : Option Sel :=
  let cs := skipSpaces selector.toList
  match parseCompound cs with
  | some (s, rest) => parseSelLoop (rest.length + 1) (Sel.simple s) rest
  | none => none

/-! ## Parsed HTML documents (models the tree the scraper crate hands to
the extractors; building it from page text is the external parser). -/

/-- A DOM node: an element with tag, attributes and children, or a text
node. -/
inductive Node where
  | element (tag : String) (attrs : List (String × String)) (children : List Node)
  | text (s : String)

/-- Models ElementRef::value().attr(name): the value of the named
attribute, none on a text node or when the attribute is missing. -/
def Node.attr (n : Node) (name : String) : Option String :=
  match n with
  | .element _ attrs _ => (attrs.find? (fun kv => kv.1 == name)).map (fun kv => kv.2)
  | .text _ => none

/-- Splits a character list on whitespace into its nonempty segments. -/
def splitClassesAux : List Char → List Char → List String
  | [], acc => if acc.isEmpty then [] else [String.mk acc.reverse]
  | c :: rest, acc =>
    if isSpaceChar c then
      if acc.isEmpty then splitClassesAux rest []
      else String.mk acc.reverse :: splitClassesAux rest []
    else splitClassesAux rest (c :: acc)

/-- The classes of an element, read from its whitespace-separated class
attribute. -/
def Node.classList (n : Node) : List String :=
  splitClassesAux ((n.attr "class").getD "").toList []

mutual

/-- Models ElementRef::text(): the descendant text segments of a node in
document order, one string per text node. -/
def Node.texts : Node → List String
  | .text s => [s]
  | .element _ _ children => textsList children
termination_by structural n => n

/-- The concatenated descendant text segments of a list of nodes. -/
def textsList : List Node → List String
  | [] => []
  | n :: rest => n.texts ++ textsList rest
termination_by structural l => l

end

def attrText (attrs : List (String × String)) : String :=
  attrs.foldl (fun acc kv => acc ++ " " ++ kv.1 ++ "=\"" ++ kv.2 ++ "\"") ""

mutual

/-- Serializes a node back to HTML text. -/
def Node.render : Node → String
  | .text s => s
  | .element tag attrs children =>
    "<" ++ tag ++ attrText attrs ++ ">" ++ renderList children ++ "</" ++ tag ++ ">"
termination_by structural n => n

/-- Serializes a list of nodes back to HTML text. -/
def renderList : List Node → String
  | [] => ""
  | n :: rest => n.render ++ renderList rest
termination_by structural l => l

end

/-- Models ElementRef::inner_html(): the serialized children of the node,
markup preserved. -/
def Node.innerHtml : Node → String
  | .text s => s
  | .element _ _ children => renderList children

/-- Whether one compound selector holds of an element, given the 1-based
index of the element among the element children of its parent. -/
def matchesSimple (s : SimpleSel) (n : Node) (idx : Nat) : Bool :=
  match n with
  | .text _ => false
  | .element tag _ _ =>
    (match s.tag with
     | none => true
     | some t => t == tag) &&
    s.ids.all (fun i => n.attr "id" == some i) &&
    s.classes.all (fun c => n.classList.contains c) &&
    s.nths.all (fun k => k == idx)

/-- Whether a predicate holds of some ancestor in the chain, each tried
with its own sibling index and remaining ancestors. -/
def ancAny (f : Node → Nat → List (Node × Nat) → Bool) : List (Node × Nat) → Bool
  | [] => false
  | (a, ai) :: rest => f a ai rest || ancAny f rest

/-- Whether a complex selector matches an element, given its sibling index
and its ancestor chain (nearest first, each with its own sibling index). -/
def selMatches : Sel → Node → Nat → List (Node × Nat) → Bool
  | .simple s, n, idx, _ => matchesSimple s n idx
  | .child p s, n, idx, anc =>
    matchesSimple s n idx &&
      (match anc with
       | [] => false
       | (a, ai) :: rest => selMatches p a ai rest)
  | .descendant p s, n, idx, anc =>
    matchesSimple s n idx && ancAny (selMatches p) anc
termination_by structural q => q

mutual

/-- All elements of a subtree in document (preorder) order, each with its
sibling index and ancestor chain. -/
def elemsOf : Node → Nat → List (Node × Nat) → List (Node × Nat × List (Node × Nat))
  | .text _, _, _ => []
  | .element tag attrs children, idx, anc =>
    (Node.element tag attrs children, idx, anc) ::
      elemsOfChildren children 1 ((Node.element tag attrs children, idx) :: anc)
termination_by structural n => n

/-- Elements of a forest of siblings, numbering element children from the
given index (text nodes take no index, as :nth-child counts elements). -/
def elemsOfChildren : List Node → Nat → List (Node × Nat) → List (Node × Nat × List (Node × Nat))
  | [], _, _ => []
  | .text _ :: rest, i, anc => elemsOfChildren rest i anc
  | .element tag attrs children :: rest, i, anc =>
    elemsOf (Node.element tag attrs children) i anc ++ elemsOfChildren rest (i + 1) anc
termination_by structural l => l

end

/-- A parsed document: the root of the node tree built by the external
HTML parser. -/
structure Html where
  root : Node

/-- Models Html::select: the matching elements in document order. -/
def Html.selectAll (document : Html) (q : Sel) : List Node :=
  ((elemsOf document.root 1 []).filter
    (fun ec => selMatches q ec.1 ec.2.1 ec.2.2)).map (fun ec => ec.1)

/-- Embeds select_elements (main.rs lines 231-234): parse the selector
string, and on success return the first matching element of the document;
a selector that fails to parse, and a selector that matches nothing, both
give none. -/
def select_elements (document : Html) (selector : String) : Option Node :=
  match parseSelector selector with
  | none => none
  | some parsed_selector => (document.selectAll parsed_selector).head?

/-! ## Field extractors (main.rs lines 236-410). Each queries a hardcoded
CSS selector through select_elements; only get_recipe_title even declares
a selector parameter, and it does not use it. The verbose flag only
controls console printing in the source and never affects the result. -/

/-- Embeds get_recipe_title (lines 260-266): inner HTML of the first
element matching the hardcoded selector h1.text-center; the css_selector
parameter is unused in the source. -/
def get_recipe_title (document : Html) (css_selector : String) (verbose : Bool) :
    Option String :=
  (select_elements document "h1.text-center").map Node.innerHtml

/-- Embeds get_recipe_description (lines 292-299): all descendant text
segments of the first element matching the hardcoded selector .large-8,
joined with single spaces, then trimmed. -/
def get_recipe_description (document : Html) (verbose : Bool) : Option String :=
  (select_elements document ".large-8").map
    (fun e => rustTrim (joinWith " " e.texts))

/-- Embeds get_recipe_ingredients (lines 325-338): descendant text
segments of the first element matching the hardcoded selector
.detail-ingr-block, each trimmed, empty results dropped. -/
def get_recipe_ingredients (document : Html) (verbose : Bool) : Option (List String) :=
  (select_elements document ".detail-ingr-block").map
    (fun e => (e.texts.map rustTrim).filter (fun s => !(rustIsEmpty s)))

/-- Embeds get_recipe_steps (lines 364-377): same normalization as the
ingredients, on the hardcoded selector for the preparation list. -/
def get_recipe_steps (document : Html) (verbose : Bool) : Option (List String) :=
  (select_elements document "#preparation > ol:nth-child(2)").map
    (fun e => (e.texts.map rustTrim).filter (fun s => !(rustIsEmpty s)))

/-- Embeds get_recipe_image (lines 403-410): the src attribute of the
first element matching the hardcoded selector .recipe-image; none when no
element matches or the matched element has no src attribute. -/
def get_recipe_image (document : Html) (verbose : Bool) : Option String :=
  (select_elements document ".recipe-image").bind (fun e => e.attr "src")

/-! ## Selector registry (load_selectors, main.rs lines 128-162). The file
read and the TOML text parse are collaborators; the embedding starts from
the already-parsed TOML value. -/

/-- The Selectors struct of main.rs lines 34-46: the five configured CSS
selector strings for one site. -/
structure Selectors where
  title : String
  description : String
  ingredients : String
  steps : String
  image : String
  deriving DecidableEq

/-- A parsed TOML value, reduced to the shapes load_selectors inspects:
strings, tables, and everything else (on which as_str returns none). -/
inductive Toml where
  | str (s : String)
  | table (entries : List (String × Toml))
  | other

/-- Models toml::Value::get(key): a lookup in a table, none on any other
value. -/
def Toml.get : Toml → String → Option Toml
  | .table entries, key => (entries.find? (fun kv => kv.1 == key)).map (fun kv => kv.2)
  | _, _ => none

/-- Models toml::Value::as_str. -/
def Toml.as_str : Toml → Option String
  | .str s => some s
  | _ => none

/-- One field of load_selectors: get(key).and_then(as_str)
followed by unwrap_or_default(), so a missing or non-string entry
degrades to the empty-string selector. -/
def selectorEntry (website_selectors : Toml) (key : String) : String :=
  ((website_selectors.get key).bind Toml.as_str).getD ""

/-- Embeds load_selectors (lines 128-162) from the parsed TOML value on:
fails exactly when the website key is absent, with the source error
message; otherwise builds the Selectors record with empty-string defaults
per field. -/
def load_selectors (value : Toml) (website : String) : Except String Selectors :=
  match value.get website with
  | none => Except.error "Website not found in selectors file"
  | some website_selectors =>
    Except.ok
      { title := selectorEntry website_selectors "title"
        description := selectorEntry website_selectors "description"
        ingredients := selectorEntry website_selectors "ingredients"
        steps := selectorEntry website_selectors "steps"
        image := selectorEntry website_selectors "image" }

/-! ## Recipe assembly and output naming (main.rs lines 15-27 and 76-97). -/

/-- The Recipe struct of main.rs lines 15-27. Its five fields are the five
optional extraction results; the struct declares no source_url field. -/
structure Recipe where
  title : Option String
  description : Option String
  ingredients : Option (List String)
  steps : Option (List String)
  image_link : Option String
  deriving DecidableEq

/-- Embeds the Recipe construction of main.rs lines 76-82: the five
extractors are invoked on the document with verbose false. Main as
written passes each configured selector along, but only get_recipe_title
declares a selector parameter (and ignores it); the other four extractor
functions take no selector argument at all. -/
def assembleRecipe (document : Html) (selectors : Selectors) : Recipe :=
  { title := get_recipe_title document selectors.title false
    description := get_recipe_description document false
    ingredients := get_recipe_ingredients document false
    steps := get_recipe_steps document false
    image_link := get_recipe_image document false }

/-- The extraction phase of one run for an accepted input URL: main uses
the URL only to fetch the page text (a collaborator); the assembled
Recipe receives no part of it. -/
def runExtract (input_url : String) (document : Html) (selectors : Selectors) : Recipe :=
  assembleRecipe document selectors

/-- Embeds the pipeline of main after URL acceptance, with fetch and HTML
parse abstracted: the load_selectors error propagates through the question
mark operator and terminates the run. -/
def runPipeline (config : Toml) (document : Html) : Except String Recipe :=
  match load_selectors config "15gram" with
  | Except.error e => Except.error e
  | Except.ok selectors => Except.ok (assembleRecipe document selectors)

/-- Embeds the file-name derivation of main.rs lines 84-88: the title
interpolated verbatim into the name when present, a fixed fallback when
absent. -/
def recipeFileName (recipe : Recipe) : String :=
  match recipe.title with
  | some title => "recipe_" ++ title ++ ".json"
  | none => "recipe.json"

/-! ## Concrete fixtures used by the witnesses and counterexamples. -/

/-- The five selector strings the shipped selectors.toml would configure
for the 15gram site. -/
def sampleSelectors : Selectors :=
  ⟨"h1.text-center", ".large-8", ".detail-ingr-block",
    "#preparation > ol:nth-child(2)", ".recipe-image"⟩

/-- A second, arbitrary selector set, different in every field. -/
def otherSelectors : Selectors := ⟨".a", "", "bogus(", "p", "img"⟩

def titleNode : Node := .element "h1" [("class", "text-center")] [.text "Tomato Soup"]

def descNode : Node := .element "div" [("class", "large-8")] [.text "A soup."]

def ingrNode : Node :=
  .element "div" [("class", "detail-ingr-block")]
    [.text "200g tomato\n", .text "\n", .text "1 onion\n"]

def stepsNode : Node :=
  .element "ol" [] [.element "li" [] [.text "Step 1"], .element "li" [] [.text "Step 2"]]

/-- A page with the four non-image fields present and no .recipe-image
node: the document of end-to-end scenario D. -/
def scenarioDDoc : Html :=
  ⟨.element "html" []
    [.element "body" []
      [titleNode, descNode, ingrNode,
        .element "div" [("id", "preparation")]
          [.element "p" [] [.text "intro"], stepsNode]]]⟩

/-- A page whose title contains embedded markup. -/
def markupDoc : Html :=
  ⟨.element "html" []
    [.element "body" []
      [.element "h1" [("class", "text-center")]
        [.text "Tomato ", .element "em" [] [.text "Soup"]]]]⟩

/-- A page with no recipe content at all. -/
def emptyDoc : Html := ⟨.element "html" [] []⟩

/-- The document of end-to-end scenario B: the ingredients block alone. -/
def scenarioBDoc : Html := ⟨ingrNode⟩

/-- An ingredients block with a duplicated entry and interior whitespace. -/
def dupNode : Node :=
  .element "div" [("class", "detail-ingr-block")]
    [.text " 1 egg ", .text "salt", .text "1 egg"]

def dupDoc : Html := ⟨dupNode⟩

/-- An image node carrying a src attribute. -/
def imgNode : Node := .element "img" [("src", "image.jpg"), ("class", "recipe-image")] []

def imgDoc : Html := ⟨imgNode⟩

/-- An image node with no src attribute. -/
def noSrcDoc : Html := ⟨.element "img" [("class", "recipe-image")] []⟩

/-- A parsed configuration table for the 15gram site with the steps entry
absent: the registry situation of end-to-end scenario E. -/
def sampleSiteTable : Toml :=
  .table
    [("title", .str "h1.text-center"), ("description", .str ".large-8"),
      ("ingredients", .str ".detail-ingr-block"), ("image", .str ".recipe-image")]

def sampleConfig : Toml := .table [("15gram", sampleSiteTable)]

/-- The selector set load_selectors builds from sampleConfig: the absent
steps entry degraded to the empty string. -/
def sampleLoadedSelectors : Selectors :=
  ⟨"h1.text-center", ".large-8", ".detail-ingr-block", "", ".recipe-image"⟩

def sampleRecipeA : Recipe := ⟨some "Tomato Soup", some "A soup.", none, none, none⟩

def sampleRecipeB : Recipe :=
  ⟨some "Tomato Soup", none, some ["1 egg"], none, some "image.jpg"⟩

/-- The parse of the hardcoded title selector h1.text-center. -/
def titleSel : Sel := .simple ⟨some "h1", [], ["text-center"], []⟩

/-! ## Claim theorems. -/

/-- C1, counterexample. The claim says the resolver accepts exactly the
URLs with one of the two origins https://15gram.be/ and
https://dagelijksekost.vrt.be/ as a literal prefix of the trimmed input.
The code (main.rs line 62) instead tests substring containment of the
single origin https://15gram.be/: a URL on a foreign host that merely
mentions that origin in its query string is accepted although neither
supported origin is a prefix of it, and a URL that does start with the
dagelijksekost origin is rejected. -/
theorem acceptUrl_substring_counterexample :
    acceptUrl "https://evil.example/?u=https://15gram.be/" = true ∧
    "https://15gram.be/".toList.isPrefixOf
      "https://evil.example/?u=https://15gram.be/".toList = false ∧
    "https://dagelijksekost.vrt.be/".toList.isPrefixOf
      "https://evil.example/?u=https://15gram.be/".toList = false ∧
    "https://dagelijksekost.vrt.be/".toList.isPrefixOf
      "https://dagelijksekost.vrt.be/recipes/stoofvlees".toList = true ∧
    acceptUrl "https://dagelijksekost.vrt.be/recipes/stoofvlees" = false := by
  refine ⟨?_, ?_, ?_, ?_, ?_⟩ <;> decide

/-- C1, amended: the resolver accepts an input string exactly when it
parses as a URL and the literal https://15gram.be/ occurs as a substring
anywhere in it; prefix position is not required, and the dagelijksekost
origin is not part of the test. -/
theorem acceptUrl_iff_parse_and_contains (input_url : String) :
    acceptUrl input_url = true ↔
      (urlParse input_url).isSome = true ∧
        "https://15gram.be/".toList <:+: input_url.toList := by
  unfold acceptUrl
  rw [Bool.and_eq_true, rustContains_iff_infix]

/-- C2, counterexample. The claim says every produced Recipe carries a
source_url field holding the verbatim input URL. The Recipe struct of
main.rs lines 15-27 has no such field, and the record assembled in lines
76-82 is independent of the input URL: two runs that differ only in the
input URL produce identical records, which the claim would force to
differ. -/
theorem recipe_has_no_source_url_counterexample :
    runExtract "https://15gram.be/recipes/a" scenarioDDoc sampleSelectors =
      runExtract "https://15gram.be/recipes/b" scenarioDDoc sampleSelectors ∧
    "https://15gram.be/recipes/a" ≠ "https://15gram.be/recipes/b" :=
  ⟨rfl, by decide⟩

/-- C2, amended: the Recipe record declares no source_url field; the
extraction result of a run is a function of the parsed document and the
loaded selector set alone, independent of the input URL. -/
theorem runExtract_independent_of_url (url1 url2 : String) (document : Html)
    (selectors : Selectors) :
    runExtract url1 document selectors = runExtract url2 document selectors := rfl

/-- C3, counterexample. The claim says InvalidUrl and UnsupportedDomain
terminate the run and are never retried. In the code (main.rs lines
51-67) a rejected input only makes the loop print a message and prompt
again: after an unparsable input and an unsupported-domain input the same
run goes on to accept a later input and continue. -/
theorem rejected_url_does_not_terminate_run :
    acceptUrl "not-a-url" = false ∧
    acceptUrl "https://example.com/recipe" = false ∧
    validate_url "not-a-url" = Except.error "Invalid URL format." ∧
    urlLoop ["not-a-url", "https://example.com/recipe", "https://15gram.be/recipes/soup"] =
      some "https://15gram.be/recipes/soup" :=
  ⟨by decide, by decide, rfl, by decide⟩

/-- C3, amended: a failed URL (unparsable or outside the allow-list) does
not terminate the run: the loop drops that input and retries acceptance
on the next one. Only the SiteNotConfigured lookup failure is
run-terminating, propagating its error to the caller. -/
theorem error_termination_behavior (line : String) (rest : List String)
    (config : Toml) (document : Html)
    (h : acceptUrl (rustTrim line) = false) :
    urlLoop (line :: rest) = urlLoop rest ∧
    ((load_selectors config "15gram").isOk = false →
      runPipeline config document = Except.error "Website not found in selectors file") := by
  constructor
  · simp [urlLoop, h]
  · intro hfail
    unfold runPipeline
    unfold load_selectors at hfail ⊢
    cases hkey : config.get "15gram" with
    | none => rfl
    | some ws => rw [hkey] at hfail; simp [Except.isOk, Except.toBool] at hfail

/-- C3, witness for the amended theorem at concrete inputs: an
unsupported URL is skipped by the loop, and an empty configuration makes
the pipeline terminate with the source error message. -/
theorem error_termination_behavior_witness :
    urlLoop ["https://example.com/recipe", "https://15gram.be/x"] =
      urlLoop ["https://15gram.be/x"] ∧
    ((load_selectors (Toml.table []) "15gram").isOk = false →
      runPipeline (Toml.table []) emptyDoc =
        Except.error "Website not found in selectors file") :=
  error_termination_behavior "https://example.com/recipe" ["https://15gram.be/x"]
    (Toml.table []) emptyDoc (by decide)

/-- C4: for every parsed configuration value and site key, the registry
lookup succeeds exactly when the site key is present, and in a successful
lookup every absent selector entry degrades to the empty-string selector
for its field instead of failing the lookup. -/
theorem load_selectors_absent_entries_default (value : Toml) (website : String) :
    ((load_selectors value website).isOk = (value.get website).isSome) ∧
    (∀ ws sels, value.get website = some ws →
      load_selectors value website = Except.ok sels →
      ((ws.get "title" = none → sels.title = "") ∧
       (ws.get "description" = none → sels.description = "") ∧
       (ws.get "ingredients" = none → sels.ingredients = "") ∧
       (ws.get "steps" = none → sels.steps = "") ∧
       (ws.get "image" = none → sels.image = ""))) := by
  constructor
  · cases hkey : value.get website <;>
      simp [load_selectors, hkey, Except.isOk, Except.toBool]
  · intro ws sels hkey hok
    unfold load_selectors at hok
    rw [hkey] at hok
    simp only [Except.ok.injEq] at hok
    subst hok
    refine ⟨?_, ?_, ?_, ?_, ?_⟩ <;> (intro habs; simp [selectorEntry, habs])

/-- C4, witness: in the scenario-E configuration the steps entry is
absent, the lookup still succeeds, and the steps selector comes back as
the empty string. -/
theorem load_selectors_absent_entries_default_witness :
    sampleSiteTable.get "steps" = none ∧
    load_selectors sampleConfig "15gram" = Except.ok sampleLoadedSelectors ∧
    sampleLoadedSelectors.steps = "" :=
  ⟨rfl, rfl,
    ((load_selectors_absent_entries_default sampleConfig "15gram").2 sampleSiteTable
      sampleLoadedSelectors rfl rfl).2.2.2.1 rfl⟩

/-- C5: absence is the only failure outcome of the selection machinery:
for every document and every selector string (empty and malformed ones
included) the select-first primitive returns none exactly when the
selector fails to parse or no element matches, and each of the five
extractors returns none whenever select-first on its selector does; all
of these are total functions into Option, so no error is ever raised. -/
theorem extractor_absence_is_total (document : Html) (selector css_selector : String)
    (verbose : Bool) :
    (select_elements document selector = none ↔
      parseSelector selector = none ∨
        ∃ q, parseSelector selector = some q ∧ document.selectAll q = []) ∧
    (select_elements document "h1.text-center" = none →
      get_recipe_title document css_selector verbose = none) ∧
    (select_elements document ".large-8" = none →
      get_recipe_description document verbose = none) ∧
    (select_elements document ".detail-ingr-block" = none →
      get_recipe_ingredients document verbose = none) ∧
    (select_elements document "#preparation > ol:nth-child(2)" = none →
      get_recipe_steps document verbose = none) ∧
    (select_elements document ".recipe-image" = none →
      get_recipe_image document verbose = none) := by
  refine ⟨?_, ?_, ?_, ?_, ?_, ?_⟩
  · unfold select_elements
    cases hp : parseSelector selector with
    | none => simp
    | some q => simp [List.head?_eq_none_iff]
  · intro h; simp [get_recipe_title, h]
  · intro h; simp [get_recipe_description, h]
  · intro h; simp [get_recipe_ingredients, h]
  · intro h; simp [get_recipe_steps, h]
  · intro h; simp [get_recipe_image, h]

/-- C5, witness: on a document with no matching node the title extractor
is absent, never an error. -/
theorem extractor_absence_is_total_witness :
    get_recipe_title emptyDoc "whatever" false = none :=
  (extractor_absence_is_total emptyDoc ".x" "whatever" false).2.1 rfl

/-- C6: the title extractor parses the hardcoded selector h1.text-center
and returns the inner HTML of the first matching element verbatim, markup
preserved rather than text-only, or none when no element matches: on the
markup fixture the embedded em element survives, and on the scenario-A
page the plain title comes back unchanged. -/
theorem title_is_inner_html_of_first_match (document : Html) (css_selector : String)
    (verbose : Bool) :
    parseSelector "h1.text-center" = some titleSel ∧
    get_recipe_title document css_selector verbose =
      (document.selectAll titleSel).head?.map Node.innerHtml ∧
    get_recipe_title markupDoc css_selector verbose = some "Tomato <em>Soup</em>" ∧
    get_recipe_title scenarioDDoc css_selector verbose = some "Tomato Soup" ∧
    get_recipe_title emptyDoc css_selector verbose = none :=
  ⟨rfl, rfl, rfl, rfl, rfl⟩

theorem not_rustIsEmpty_eq_decide (s : String) :
    (!(rustIsEmpty s)) = decide (s ≠ "") := by
  cases s with
  | mk data =>
    cases data with
    | nil => rfl
    | cons c cs =>
      have h : String.mk (c :: cs) ≠ "" := by simp [String.ext_iff]
      simp [rustIsEmpty, String.toList, h]

/-- C7: the ingredients and steps extractors return the first matching
element's descendant text segments in document order, each segment
individually trimmed, empty segments discarded and duplicates preserved;
on the scenario-B block the empty middle segment is dropped, on the
duplicate fixture order and multiplicity survive, and on the scenario-D
page the two steps come back in document order. -/
theorem ingredients_steps_trimmed_segments (document : Html) (verbose : Bool) :
    (∀ e, select_elements document ".detail-ingr-block" = some e →
      get_recipe_ingredients document verbose =
        some ((e.texts.map rustTrim).filter (fun s => decide (s ≠ "")))) ∧
    (∀ e, select_elements document "#preparation > ol:nth-child(2)" = some e →
      get_recipe_steps document verbose =
        some ((e.texts.map rustTrim).filter (fun s => decide (s ≠ "")))) ∧
    get_recipe_ingredients scenarioBDoc verbose = some ["200g tomato", "1 onion"] ∧
    get_recipe_ingredients dupDoc verbose = some ["1 egg", "salt", "1 egg"] ∧
    get_recipe_steps scenarioDDoc verbose = some ["Step 1", "Step 2"] := by
  have hf : (fun s => !(rustIsEmpty s)) = (fun s : String => decide (s ≠ "")) :=
    funext not_rustIsEmpty_eq_decide
  refine ⟨?_, ?_, rfl, rfl, rfl⟩
  · intro e he
    simp [get_recipe_ingredients, he, hf]
  · intro e he
    simp [get_recipe_steps, he, hf]

/-- C7, witness: the general equation instantiated on the scenario-B
document and its matched ingredients block. -/
theorem ingredients_steps_trimmed_segments_witness :
    get_recipe_ingredients scenarioBDoc false =
      some ((ingrNode.texts.map rustTrim).filter (fun s => decide (s ≠ ""))) :=
  (ingredients_steps_trimmed_segments scenarioBDoc false).1 ingrNode rfl

/-- C8: the image extractor returns the verbatim src attribute value of
the first element matching the image selector; a matched element without
a src attribute and a document without a match both give none, and in the
scenario-D page the missing image leaves the other four fields intact. -/
theorem image_src_of_first_match (document : Html) (verbose : Bool) :
    (∀ e, select_elements document ".recipe-image" = some e →
      get_recipe_image document verbose = e.attr "src") ∧
    (select_elements document ".recipe-image" = none →
      get_recipe_image document verbose = none) ∧
    get_recipe_image imgDoc verbose = some "image.jpg" ∧
    get_recipe_image noSrcDoc verbose = none ∧
    assembleRecipe scenarioDDoc sampleSelectors =
      ⟨some "Tomato Soup", some "A soup.", some ["200g tomato", "1 onion"],
        some ["Step 1", "Step 2"], none⟩ := by
  refine ⟨?_, ?_, rfl, rfl, rfl⟩
  · intro e he; simp [get_recipe_image, he]
  · intro h; simp [get_recipe_image, h]

/-- C8, witness: the general equation instantiated on the fixture whose
image node carries src image.jpg. -/
theorem image_src_of_first_match_witness :
    get_recipe_image imgDoc false = imgNode.attr "src" :=
  (image_src_of_first_match imgDoc false).1 imgNode rfl

/-- C9: the output file name depends only on the extracted title: recipes
with equal titles get equal names; a present title is interpolated
verbatim, occurring contiguously and unescaped inside the name; an absent
title gives the fixed fallback name. -/
theorem file_name_depends_only_on_title (r1 r2 : Recipe) (t : String)
    (h : r1.title = r2.title) :
    recipeFileName r1 = recipeFileName r2 ∧
    (recipeFileName { r1 with title := some t }).toList =
      "recipe_".toList ++ t.toList ++ ".json".toList ∧
    t.toList <:+: (recipeFileName { r1 with title := some t }).toList ∧
    recipeFileName { r1 with title := none } = "recipe.json" := by
  refine ⟨?_, rfl, ⟨"recipe_".toList, ".json".toList, rfl⟩, rfl⟩
  unfold recipeFileName
  rw [h]

/-- C9, witness: two recipes sharing the title but differing in every
other field get the same file name. -/
theorem file_name_depends_only_on_title_witness :
    recipeFileName sampleRecipeA = recipeFileName sampleRecipeB :=
  (file_name_depends_only_on_title sampleRecipeA sampleRecipeB "x" rfl).1

/-- C10: the configured SelectorSet does not influence extraction: the
title extractor ignores its selector argument and always queries the
hardcoded h1.text-center, the other four extractors do not even take a
selector argument, and assembling the Recipe from any two selector sets
yields identical records on every document. -/
theorem extractors_ignore_configured_selectors (document : Html) (verbose : Bool)
    (s1 s2 : String) (sels1 sels2 : Selectors) :
    get_recipe_title document s1 verbose = get_recipe_title document s2 verbose ∧
    get_recipe_title document s1 verbose =
      (select_elements document "h1.text-center").map Node.innerHtml ∧
    assembleRecipe document sels1 = assembleRecipe document sels2 ∧
    assembleRecipe scenarioDDoc sampleSelectors =
      assembleRecipe scenarioDDoc otherSelectors :=
  ⟨rfl, rfl, rfl, rfl⟩

end FoodScraper
